import Mathlib

/-! Shallow embedding of the session/thread orchestration layer of the
Youtube-Learning-Mode AI service (Go sources: pkg/handlers/handlers.go and
the services package).  Remote HTTP calls to the AI provider are modelled by
an oracle supplied in an environment `Env`; the durable store (Redis) is
modelled as explicit state, with injectable faults for its operations.  Each
embedded function returns its result, the updated world, and the list of
remote-provider calls it issued. -/

/-- Seconds in 24 hours: the expiry the Go code passes as 24*time.Hour. -/
def ttl24h : Nat := 24 * 3600

/-- Durable key-value store state.  String keys carry the value together with
the expiry (in seconds) that was set alongside them (the Go code always sets
one); list keys (RPush) are append-only and never receive an expiry, which is
reflected structurally: `lists` entries carry no expiry field and `rpush`
leaves `kv` untouched.  Writes prepend a binding; lookups take the newest. -/
structure Redis where
  kv : List (String × String × Nat)
  lists : List (String × List String)
deriving Repr, DecidableEq

/-- Lookup of a string key (Redis GET), newest binding first. -/
def Redis.getStr (r : Redis) (k : String) : Option String :=
  (r.kv.find? (fun e => e.1 == k)).map (fun e => e.2.1)

/-- Lookup of a string key together with the expiry stored with it. -/
def Redis.getEntry (r : Redis) (k : String) : Option (String × Nat) :=
  (r.kv.find? (fun e => e.1 == k)).map (fun e => e.2)

/-- Redis SET with expiry. -/
def Redis.setStr (r : Redis) (k v : String) (ttl : Nat) : Redis :=
  { r with kv := (k, v, ttl) :: r.kv }

/-- Current contents of a list key (empty when absent). -/
def Redis.getList (r : Redis) (k : String) : List String :=
  ((r.lists.find? (fun e => e.1 == k)).map (fun e => e.2)).getD []

/-- Redis RPUSH: appends one element at the tail of the list key. -/
def Redis.rpush (r : Redis) (k v : String) : Redis :=
  { r with lists := (k, r.getList k ++ [v]) :: r.lists }

/-- One outbound call to the remote AI provider. -/
inductive Event
  | createAssistantCall
  | createThreadCall
  | postMessageCall (threadID role content : String)
  | startRunCall (threadID assistantID : String)
  | getRunStatusCall (threadID runID : String)
  | listMessagesCall (threadID : String)
deriving Repr, DecidableEq, BEq

/-- Outcome of a provider call as the Go code observes it: transport error
from client.Do, a non-200 status whose raw body is read back, a JSON decode
failure (this also covers the read-body failure branch of GetThreadMessages),
or the decoded payload. -/
inductive CallResult (α : Type)
  | sendError (e : String)
  | badStatus (body : String)
  | decodeError (e : String)
  | ok (a : α)
deriving Repr, DecidableEq

/-- Outcome of the post-message provider call, whose response body the Go
code never decodes: transport error, non-200 status, or success. -/
inductive PostResult
  | sendError (e : String)
  | badStatus (body : String)
  | ok
deriving Repr, DecidableEq

/-- Mirrors the Go TextContent struct (the unused annotations field is
dropped). -/
structure TextContent where
  value : String
deriving Repr, DecidableEq

/-- Mirrors the Go ContentFragment struct: a typed fragment whose text part
is present only for text fragments (a nil pointer in Go). -/
structure ContentFragment where
  type : String
  text : Option TextContent
deriving Repr, DecidableEq

/-- Mirrors the Go Message struct returned by list-messages. -/
structure Message where
  id : String
  role : String
  content : List ContentFragment
deriving Repr, DecidableEq

/-- Mirrors the Go ThreadManager struct. -/
structure ThreadManager where
  threadID : String
deriving Repr, DecidableEq

/-- The mutable state the embedded functions act on: the durable store and
the in-process threadManagers map (an association list, newest first, keyed
by assistant ID exactly as the Go code writes it). -/
structure World where
  redis : Redis
  threadManagers : List (String × ThreadManager)
deriving Repr, DecidableEq

/-- Oracle for the remote provider.  createAssistant receives the name
(the video ID) and the instruction string the code sends; getRunStatus is
additionally indexed by the poll iteration, modelling that successive polls
of one run can observe different statuses over time. -/
structure Provider where
  createAssistant : String → String → CallResult String
  createThread : CallResult String
  postMessage : String → String → String → PostResult
  startRun : String → String → CallResult (String × String)
  getRunStatus : String → Nat → CallResult String
  listMessages : String → CallResult (List Message)

/-- Fault injection for the durable store: when a fault is assigned to a key,
the corresponding Redis operation fails with that error text. -/
structure Faults where
  getFail : String → Option String
  setFail : String → Option String
  rpushFail : String → Option String

/-- The environment a single embedded call runs against. -/
structure Env where
  provider : Provider
  faults : Faults

/-- A fault-free durable store. -/
def noFaults : Faults :=
  { getFail := fun _ => none, setFail := fun _ => none, rpushFail := fun _ => none }

/-- The instruction string CreateAssistantWithMetadata builds from the video
metadata via fmt.Sprintf (the escape \x27 is the ASCII apostrophe of the Go
format string). -/
structure InitializeRequest where
  systemInstructions : String
  videoID : String
  title : String
  channel : String
  transcript : String
deriving Repr, DecidableEq

/-- The instruction string embedded into the create-assistant request. -/
def assistantInstructions (req : InitializeRequest) : String :=
  "You are a helpful assistant for the video titled \x27" ++ req.title ++
    "\x27 by \x27" ++ req.channel ++ "\x27. Here is the transcript: " ++ req.transcript

/-- CreateAssistantWithMetadata: sends the create-assistant request and, on
success, stores the new assistant ID under `assistant_id:<VideoID>` with a
24-hour expiry.  The Go marshal/NewRequest error branches are omitted: they
cannot fail for the constant-shaped map of strings the code builds. -/
def createAssistantWithMetadata (env : Env) (initReq : InitializeRequest) (w : World) :
    Except String String × World × List Event :=
  match env.provider.createAssistant initReq.videoID (assistantInstructions initReq) with
  | CallResult.sendError e =>
      (Except.error ("failed to send request: " ++ e), w, [Event.createAssistantCall])
  | CallResult.badStatus body =>
      (Except.error ("failed to create assistant: " ++ body), w, [Event.createAssistantCall])
  | CallResult.decodeError e =>
      (Except.error ("failed to decode response: " ++ e), w, [Event.createAssistantCall])
  | CallResult.ok id =>
      match env.faults.setFail ("assistant_id:" ++ initReq.videoID) with
      | some e =>
          (Except.error ("failed to store assistant ID in Redis: " ++ e), w,
           [Event.createAssistantCall])
      | none =>
          (Except.ok id,
           { w with redis := w.redis.setStr ("assistant_id:" ++ initReq.videoID) id ttl24h },
           [Event.createAssistantCall])

/-- createThread: sends the create-thread request and decodes the ID. -/
def createThread (env : Env) : Except String String × List Event :=
  (match env.provider.createThread with
   | CallResult.sendError e => Except.error ("failed to send request: " ++ e)
   | CallResult.badStatus body => Except.error ("failed to create thread: " ++ body)
   | CallResult.decodeError e => Except.error ("failed to decode response: " ++ e)
   | CallResult.ok id => Except.ok id,
   [Event.createThreadCall])

/-- GetOrCreateThreadManager: consults Redis under `thread_id:<VideoID>`; on
a hit it uses the stored thread ID without any provider call; on a miss
(redis: nil) it creates a thread remotely and stores the new ID with a
24-hour expiry; any other Redis error aborts.  In every success branch the
resulting manager is also written into the threadManagers map under the
assistant ID, and that map is never read. -/
def getOrCreateThreadManager (env : Env) (videoID assistantID : String) (w : World) :
    Except String ThreadManager × World × List Event :=
  match env.faults.getFail ("thread_id:" ++ videoID) with
  | some e => (Except.error ("failed to retrieve thread ID from Redis: " ++ e), w, [])
  | none =>
    match w.redis.getStr ("thread_id:" ++ videoID) with
    | some threadID =>
        let tm : ThreadManager := { threadID := threadID }
        (Except.ok tm,
         { w with threadManagers := (assistantID, tm) :: w.threadManagers }, [])
    | none =>
      match createThread env with
      | (Except.error e, evs) =>
          (Except.error ("failed to create thread: " ++ e), w, evs)
      | (Except.ok threadID, evs) =>
        match env.faults.setFail ("thread_id:" ++ videoID) with
        | some e => (Except.error ("failed to store thread ID in Redis: " ++ e), w, evs)
        | none =>
            let tm : ThreadManager := { threadID := threadID }
            (Except.ok tm,
             { redis := w.redis.setStr ("thread_id:" ++ videoID) threadID ttl24h,
               threadManagers := (assistantID, tm) :: w.threadManagers },
             evs)

/-- AddMessageToThread: posts the message to the remote thread; only after
that call succeeds does it append the raw content to the interaction list
`interactions:<VideoID>`. -/
def ThreadManager.addMessageToThread (tm : ThreadManager) (env : Env)
    (role content videoID : String) (w : World) :
    Except String Unit × World × List Event :=
  let evs := [Event.postMessageCall tm.threadID role content]
  match env.provider.postMessage tm.threadID role content with
  | PostResult.sendError e => (Except.error ("failed to send request: " ++ e), w, evs)
  | PostResult.badStatus body =>
      (Except.error ("failed to add message to thread: " ++ body), w, evs)
  | PostResult.ok =>
    match env.faults.rpushFail ("interactions:" ++ videoID) with
    | some e => (Except.error ("failed to store interaction in Redis: " ++ e), w, evs)
    | none =>
        (Except.ok (),
         { w with redis := w.redis.rpush ("interactions:" ++ videoID) content }, evs)

/-- GetRunStatus: fetches and decodes the status of one run; the extra index
selects which poll iteration is being answered. -/
def ThreadManager.getRunStatus (tm : ThreadManager) (env : Env)
    (runID : String) (pollIdx : Nat) : Except String String × List Event :=
  (match env.provider.getRunStatus runID pollIdx with
   | CallResult.sendError e => Except.error ("failed to send request: " ++ e)
   | CallResult.badStatus body => Except.error ("failed to get run status: " ++ body)
   | CallResult.decodeError e => Except.error ("failed to decode response: " ++ e)
   | CallResult.ok s => Except.ok s,
   [Event.getRunStatusCall tm.threadID runID])

/-- GetThreadMessages: fetches and decodes the ordered message list of the
thread (provider order, most recent first per the OpenAI convention). -/
def ThreadManager.getThreadMessages (tm : ThreadManager) (env : Env) :
    Except String (List Message) × List Event :=
  (match env.provider.listMessages tm.threadID with
   | CallResult.sendError e => Except.error ("failed to send request: " ++ e)
   | CallResult.badStatus body => Except.error ("failed to get thread messages: " ++ body)
   | CallResult.decodeError e => Except.error ("failed to decode response: " ++ e)
   | CallResult.ok msgs => Except.ok msgs,
   [Event.listMessagesCall tm.threadID])

/-- The inner loop of RunAssistant over one message: concatenates, in order,
the values of the fragments that have type "text" and a non-nil text part. -/
def assistantText (m : Message) : String :=
  m.content.foldl
    (fun acc fragment =>
      match fragment.text with
      | some t => if fragment.type == "text" then acc ++ t.value else acc
      | none => acc)
    ""

/-- The message selection of RunAssistant: the first message of the returned
list whose role is "assistant" (the most recent one under the provider
most-recent-first ordering). -/
def findAssistantMessage (messages : List Message) : Option Message :=
  messages.find? (fun m => m.role == "assistant")

/-- The polling loop of RunAssistant.  Each iteration sleeps, asks for the
run status and, when the status equals "completed", fetches the messages,
extracts the first assistant message, stores "Assistant: " ++ reply in the
interaction list and returns the reply; for every other status value it
loops again.  The Go loop is unbounded, so the embedding takes fuel and
returns `none` when the loop has not terminated within the fuel. -/
def pollLoop (env : Env) (tm : ThreadManager) (videoID runID : String) :
    Nat → Nat → World → List Event → Option (Except String String × World × List Event)
  | 0, _, _, _ => none
  | fuel + 1, pollIdx, w, evs =>
    match tm.getRunStatus env runID pollIdx with
    | (Except.error e, evs2) =>
        some (Except.error ("failed to get run status: " ++ e), w, evs ++ evs2)
    | (Except.ok status, evs2) =>
      if status == "completed" then
        match tm.getThreadMessages env with
        | (Except.error e, evs3) =>
            some (Except.error ("failed to get thread messages: " ++ e), w, evs ++ evs2 ++ evs3)
        | (Except.ok messages, evs3) =>
          match findAssistantMessage messages with
          | some msg =>
            let assistantResponse := assistantText msg
            match env.faults.rpushFail ("interactions:" ++ videoID) with
            | some e =>
                some (Except.error ("failed to store assistant response in Redis: " ++ e),
                      w, evs ++ evs2 ++ evs3)
            | none =>
                let wOut := { w with redis := w.redis.rpush ("interactions:" ++ videoID) ("Assistant: " ++ assistantResponse) }
                some (Except.ok assistantResponse, wOut, evs ++ evs2 ++ evs3)
          | none => some (Except.error "no assistant message found", w, evs ++ evs2 ++ evs3)
      else
        pollLoop env tm videoID runID fuel (pollIdx + 1) w (evs ++ evs2)

/-- RunAssistant: starts a run for the assistant on the thread and drives it
with the polling loop. -/
def ThreadManager.runAssistant (tm : ThreadManager) (env : Env)
    (assistantID videoID : String) (fuel : Nat) (w : World) :
    Option (Except String String × World × List Event) :=
  let evs := [Event.startRunCall tm.threadID assistantID]
  match env.provider.startRun tm.threadID assistantID with
  | CallResult.sendError e => some (Except.error ("failed to send request: " ++ e), w, evs)
  | CallResult.badStatus body =>
      some (Except.error ("failed to run assistant: " ++ body), w, evs)
  | CallResult.decodeError e =>
      some (Except.error ("failed to decode response: " ++ e), w, evs)
  | CallResult.ok run => pollLoop env tm videoID run.1 fuel 0 w evs

/-- AskAssistantQuestion: resolves the thread manager, posts the question as
a user turn, and runs the assistant. -/
def askAssistantQuestion (env : Env) (videoID assistantID question : String)
    (fuel : Nat) (w : World) : Option (Except String String × World × List Event) :=
  match getOrCreateThreadManager env videoID assistantID w with
  | (Except.error e, w1, evs1) =>
      some (Except.error ("failed to get thread manager: " ++ e), w1, evs1)
  | (Except.ok tm, w1, evs1) =>
    match tm.addMessageToThread env "user" question videoID w1 with
    | (Except.error e, w2, evs2) =>
        some (Except.error ("failed to add message: " ++ e), w2, evs1 ++ evs2)
    | (Except.ok _, w2, evs2) =>
      match tm.runAssistant env assistantID videoID fuel w2 with
      | none => none
      | some (r, w3, evs3) => some (r, w3, evs1 ++ evs2 ++ evs3)

/-- Mirrors the Go InitRequest of the HTTP layer. -/
structure InitRequest where
  videoID : String
  title : String
  channel : String
  transcript : List String
deriving Repr, DecidableEq

/-- Mirrors the Go QuestionRequest of the HTTP layer. -/
structure QuestionRequest where
  videoID : String
  userQuestion : String
deriving Repr, DecidableEq

/-- An HTTP response as the two handlers produce it: http.Error plain-text
errors, RespondWithError JSON errors, or a JSON object body. -/
inductive HttpResp
  | plainError (code : Nat) (msg : String)
  | jsonError (code : Nat) (msg : String)
  | okJson (body : List (String × String))
deriving Repr, DecidableEq

/-- RespondWithError helper of the Go handlers. -/
def respondWithError (code : Nat) (message : String) : HttpResp :=
  HttpResp.jsonError code message

/-- The POST /init handler.  JSON decoding of the body is represented by its
outcome `decoded`; the services.CreateGPTSession collaborator is passed as a
function returning its outcome and the collaborator calls it issued, and is
invoked only after a successful decode. -/
def initializeGPTSession (decoded : Option InitRequest)
    (createGPTSession : InitRequest → Except String Unit × List Event) :
    HttpResp × List Event :=
  match decoded with
  | none => (HttpResp.plainError 400 "Invalid request payload", [])
  | some req =>
    match createGPTSession req with
    | (Except.error _, evs) => (HttpResp.plainError 500 "Failed to initialize GPT session", evs)
    | (Except.ok _, evs) => (HttpResp.okJson [("message", "GPT session initialized")], evs)

/-- The POST /ask handler, analogous to the /init handler but answering with
RespondWithError on failure and the AI response on success. -/
def askGPTQuestion (decoded : Option QuestionRequest)
    (fetchGPTResponse : QuestionRequest → Except String String × List Event) :
    HttpResp × List Event :=
  match decoded with
  | none => (respondWithError 400 "Invalid request payload", [])
  | some req =>
    match fetchGPTResponse req with
    | (Except.error e, evs) =>
        (respondWithError 500 ("Failed to get AI response: " ++ e), evs)
    | (Except.ok aiResponse, evs) => (HttpResp.okJson [("response", aiResponse)], evs)

/-- Number of occurrences of one event in a call trace. -/
def countEvent (e : Event) : List Event → Nat
  | [] => 0
  | x :: xs => (if x = e then 1 else 0) + countEvent e xs

/-- Concrete fully successful provider used by several concrete scenarios:
the job reports queued, then running, then completed, and the thread holds
one assistant message (most recent first) whose reply text is split into the
two fragments of the specification example. -/
def happyProvider : Provider :=
  { createAssistant := fun _ _ => CallResult.ok "asst_1"
    createThread := CallResult.ok "thr_1"
    postMessage := fun _ _ _ => PostResult.ok
    startRun := fun _ _ => CallResult.ok ("run_1", "queued")
    getRunStatus := fun _ i =>
      CallResult.ok (if i == 0 then "queued" else if i == 1 then "running" else "completed")
    listMessages := fun _ => CallResult.ok
      [{ id := "m2", role := "assistant",
         content := [{ type := "text", text := some { value := "Hello, " } },
                     { type := "text", text := some { value := "world." } }] },
       { id := "m1", role := "user",
         content := [{ type := "text", text := some { value := "Q" } }] }] }

/-- Fault-free environment over the happy provider. -/
def happyEnv : Env := { provider := happyProvider, faults := noFaults }

/-- The empty initial world: empty durable store, empty threadManagers map. -/
def emptyWorld : World := { redis := { kv := [], lists := [] }, threadManagers := [] }

theorem Redis.getList_rpush_self (r : Redis) (k v : String) :
    (r.rpush k v).getList k = r.getList k ++ [v] := by
  simp [Redis.rpush, Redis.getList]

theorem Redis.kv_rpush (r : Redis) (k v : String) : (r.rpush k v).kv = r.kv := rfl

theorem Redis.lists_setStr (r : Redis) (k v : String) (t : Nat) :
    (r.setStr k v t).lists = r.lists := rfl

theorem Redis.getEntry_setStr_self (r : Redis) (k v : String) (t : Nat) :
    (r.setStr k v t).getEntry k = some (v, t) := by
  simp [Redis.setStr, Redis.getEntry]

theorem Redis.getStr_setStr_self (r : Redis) (k v : String) (t : Nat) :
    (r.setStr k v t).getStr k = some v := by
  simp [Redis.setStr, Redis.getStr]

theorem countEvent_append (e : Event) (a b : List Event) :
    countEvent e (a ++ b) = countEvent e a + countEvent e b := by
  induction a with
  | nil => simp [countEvent]
  | cons x xs ih => simp [countEvent, ih]; omega

/-- C10: AddMessageToThread appends the message content to the Interaction
Log only after the remote post-message call has succeeded: when the remote
post fails (transport error or non-success status) the function returns an
error and leaves the world, hence the interaction list of the video,
unchanged. -/
theorem C10_add_message_no_append_on_remote_failure (env : Env) (tm : ThreadManager)
    (role content videoID : String) (w : World)
    (h : env.provider.postMessage tm.threadID role content ≠ PostResult.ok) :
    (∃ msg, (tm.addMessageToThread env role content videoID w).1 = Except.error msg) ∧
    (tm.addMessageToThread env role content videoID w).2.1 = w := by
  unfold ThreadManager.addMessageToThread
  cases hp : env.provider.postMessage tm.threadID role content with
  | sendError e => exact ⟨⟨"failed to send request: " ++ e, rfl⟩, rfl⟩
  | badStatus body => exact ⟨⟨"failed to add message to thread: " ++ body, rfl⟩, rfl⟩
  | ok => exact absurd hp h

/-- Witness for C10 at a concrete failing remote post. -/
def c10Env : Env :=
  { provider := { happyProvider with postMessage := fun _ _ _ => PostResult.badStatus "boom" }
    faults := noFaults }

theorem C10_witness :
    (∃ msg, ((ThreadManager.mk "thr_1").addMessageToThread c10Env "user" "Q" "v1" emptyWorld).1
        = Except.error msg) ∧
    ((ThreadManager.mk "thr_1").addMessageToThread c10Env "user" "Q" "v1" emptyWorld).2.1
        = emptyWorld :=
  C10_add_message_no_append_on_remote_failure c10Env (ThreadManager.mk "thr_1") "user" "Q" "v1"
    emptyWorld (by simp [c10Env, happyProvider])

/-- C9: the result of GetOrCreateThreadManager (the resolved ThreadManager,
hence the ThreadID used for the question, and the resulting durable-store
state) depends only on the durable store, not on the in-process
threadManagers map: running it on two worlds with the same Redis state and
arbitrary maps yields the same outcome and the same Redis state, since the
map is written but never read on the lookup path. -/
theorem C9_lookup_ignores_thread_managers_map (env : Env) (v aid : String) (w1 w2 : World)
    (hr : w1.redis = w2.redis) :
    (getOrCreateThreadManager env v aid w1).1 = (getOrCreateThreadManager env v aid w2).1 ∧
    (getOrCreateThreadManager env v aid w1).2.1.redis
      = (getOrCreateThreadManager env v aid w2).2.1.redis := by
  simp only [getOrCreateThreadManager, createThread, hr]
  cases env.faults.getFail ("thread_id:" ++ v)
  case some e => simp [hr]
  case none =>
    cases w2.redis.getStr ("thread_id:" ++ v)
    case some t => simp [hr]
    case none =>
      cases env.provider.createThread <;>
        cases env.faults.setFail ("thread_id:" ++ v) <;> simp [hr]

/-- Witness for C9: same Redis state, two different in-process maps. -/
def c9WorldB : World :=
  { redis := { kv := [("thread_id:v1", "thr_9", 86400)], lists := [] }
    threadManagers := [("asst_1", ThreadManager.mk "other")] }

def c9WorldA : World :=
  { redis := { kv := [("thread_id:v1", "thr_9", 86400)], lists := [] }
    threadManagers := [] }

theorem C9_witness :
    (getOrCreateThreadManager happyEnv "v1" "asst_1" c9WorldA).1
      = (getOrCreateThreadManager happyEnv "v1" "asst_1" c9WorldB).1 ∧
    (getOrCreateThreadManager happyEnv "v1" "asst_1" c9WorldA).2.1.redis
      = (getOrCreateThreadManager happyEnv "v1" "asst_1" c9WorldB).2.1.redis :=
  C9_lookup_ignores_thread_managers_map happyEnv "v1" "asst_1" c9WorldA c9WorldB rfl

/-- C8: when a remote creation succeeds but the subsequent durable-store
write of its ID fails, the operation returns an error to its caller rather
than returning the created ID as a success, both for the assistant (context)
creation and for the thread creation. -/
theorem C8_orphaned_creation_surfaces_error (env : Env) (req : InitializeRequest)
    (v aid id tid e1 e2 : String) (w : World)
    (hca : env.provider.createAssistant req.videoID (assistantInstructions req)
        = CallResult.ok id)
    (hsfA : env.faults.setFail ("assistant_id:" ++ req.videoID) = some e1)
    (hgf : env.faults.getFail ("thread_id:" ++ v) = none)
    (hmiss : w.redis.getStr ("thread_id:" ++ v) = none)
    (hct : env.provider.createThread = CallResult.ok tid)
    (hsfT : env.faults.setFail ("thread_id:" ++ v) = some e2) :
    (createAssistantWithMetadata env req w).1
        = Except.error ("failed to store assistant ID in Redis: " ++ e1) ∧
    (getOrCreateThreadManager env v aid w).1
        = Except.error ("failed to store thread ID in Redis: " ++ e2) := by
  constructor
  · simp [createAssistantWithMetadata, hca, hsfA]
  · simp [getOrCreateThreadManager, hgf, hmiss, createThread, hct, hsfT]

/-- Environment for the C8 witness: creations succeed remotely, but the
durable-store writes of both IDs fail. -/
def c8Env : Env :=
  { provider := happyProvider
    faults :=
      { getFail := fun _ => none
        setFail := fun k =>
          if k == "assistant_id:v1" then some "disk full"
          else if k == "thread_id:v1" then some "disk full" else none
        rpushFail := fun _ => none } }

def c4InitReq : InitializeRequest :=
  { systemInstructions := "", videoID := "v1", title := "T", channel := "C"
    transcript := "line1 line2" }

theorem C8_witness :
    (createAssistantWithMetadata c8Env c4InitReq emptyWorld).1
        = Except.error ("failed to store assistant ID in Redis: " ++ "disk full") ∧
    (getOrCreateThreadManager c8Env "v1" "asst_1" emptyWorld).1
        = Except.error ("failed to store thread ID in Redis: " ++ "disk full") :=
  C8_orphaned_creation_surfaces_error c8Env c4InitReq "v1" "asst_1" "asst_1" "thr_1"
    "disk full" "disk full" emptyWorld rfl rfl rfl rfl rfl rfl

/-- C7: when the provider answers the start-job request with a non-success
status, ask-question returns the error built from the raw provider body
("failed to run assistant: " ++ body, so the body is contained in the
message), and the interaction list of the video gains exactly the
user-question entry recorded before the failing step and nothing else. -/
theorem C7_start_job_failure_keeps_only_question (env : Env) (v aid q body tid : String)
    (fuel : Nat) (w : World)
    (hgf : env.faults.getFail ("thread_id:" ++ v) = none)
    (hkey : w.redis.getStr ("thread_id:" ++ v) = some tid)
    (hpm : env.provider.postMessage tid "user" q = PostResult.ok)
    (hrf : env.faults.rpushFail ("interactions:" ++ v) = none)
    (hsr : env.provider.startRun tid aid = CallResult.badStatus body) :
    ∃ wOut evs,
      askAssistantQuestion env v aid q fuel w
          = some (Except.error ("failed to run assistant: " ++ body), wOut, evs) ∧
      wOut.redis.getList ("interactions:" ++ v)
          = w.redis.getList ("interactions:" ++ v) ++ [q] := by
  simp only [askAssistantQuestion, getOrCreateThreadManager, hgf, hkey,
    ThreadManager.addMessageToThread, hpm, hrf, ThreadManager.runAssistant, hsr]
  exact ⟨_, _, rfl, by simp [Redis.getList_rpush_self]⟩

/-- Environment for the C7 witness: the thread exists, posting the user turn
succeeds, and the start-job call answers with a non-success status whose raw
body is "rate limited". -/
def c7Env : Env :=
  { provider := { happyProvider with startRun := fun _ _ => CallResult.badStatus "rate limited" }
    faults := noFaults }

theorem C7_witness :
    ∃ wOut evs,
      askAssistantQuestion c7Env "v1" "asst_1" "Q" 5 c9WorldA
          = some (Except.error ("failed to run assistant: " ++ "rate limited"), wOut, evs) ∧
      wOut.redis.getList ("interactions:" ++ "v1")
          = c9WorldA.redis.getList ("interactions:" ++ "v1") ++ ["Q"] :=
  C7_start_job_failure_keeps_only_question c7Env "v1" "asst_1" "Q" "rate limited" "thr_9"
    5 c9WorldA rfl rfl rfl rfl rfl

/-- C6: a request body that fails JSON decoding makes both handlers answer
HTTP 400 (plain-text via http.Error on /init, JSON via RespondWithError on
/ask) without invoking any collaborator: no service, provider or store call
is issued, whatever the collaborator would have done. -/
theorem C6_malformed_body_yields_400_and_no_calls :
    (∀ f : InitRequest → Except String Unit × List Event,
        initializeGPTSession none f = (HttpResp.plainError 400 "Invalid request payload", [])) ∧
    (∀ g : QuestionRequest → Except String String × List Event,
        askGPTQuestion none g = (HttpResp.jsonError 400 "Invalid request payload", [])) :=
  ⟨fun _ => rfl, fun _ => rfl⟩

/-- C5: the orchestrator selects the first assistant-role message of the
provider-ordered message list (the most recent one under the provider
most-recent-first convention) and concatenates the values of its text
fragments in order; and on the status sequence queued, running, completed
with one assistant turn holding the two text fragments "Hello, " and
"world.", ask-question returns "Hello, world.". -/
theorem C5_reply_extraction
    (pre post : List Message) (m : Message)
    (hpre : ∀ m2 ∈ pre, m2.role ≠ "assistant") (hm : m.role = "assistant") :
    findAssistantMessage (pre ++ m :: post) = some m ∧
    (askAssistantQuestion happyEnv "v1" "asst_1" "Q" 5 emptyWorld).map (fun r => r.1)
        = some (Except.ok "Hello, world.") := by
  constructor
  · induction pre with
    | nil => simp [findAssistantMessage, List.find?_cons, hm]
    | cons x xs ih =>
      have hx : (x.role == "assistant") = false := by
        simp [hpre x (List.mem_cons_self x xs)]
      rw [List.cons_append]
      show List.find? _ (x :: (xs ++ m :: post)) = some m
      rw [List.find?_cons, hx]
      exact ih (fun m2 hm2 => hpre m2 (List.mem_cons_of_mem _ hm2))
  · rfl

/-- Concrete messages for the C5 witness: a user turn followed (in provider
order: preceded in time) by the assistant turn of the claim. -/
def c5UserMsg : Message :=
  { id := "m1", role := "user"
    content := [{ type := "text", text := some { value := "Q" } }] }

def c5AssistantMsg : Message :=
  { id := "m2", role := "assistant"
    content := [{ type := "text", text := some { value := "Hello, " } },
                { type := "text", text := some { value := "world." } }] }

theorem C5_witness :
    findAssistantMessage ([c5UserMsg] ++ c5AssistantMsg :: []) = some c5AssistantMsg ∧
    (askAssistantQuestion happyEnv "v1" "asst_1" "Q" 5 emptyWorld).map (fun r => r.1)
        = some (Except.ok "Hello, world.") :=
  C5_reply_extraction [c5UserMsg] [] c5AssistantMsg
    (by intro m2 hm2; simp [c5UserMsg] at hm2; simp [hm2]) rfl

/-- C4 counterexample: after a successful initialize-session for VideoID
"v1", the context (assistant) ID is stored under the key "assistant_id:v1",
and nothing is stored under "context:v1": the key namespacing of the claim
does not match the code. -/
theorem C4_counterexample_context_key :
    ((createAssistantWithMetadata happyEnv c4InitReq emptyWorld).2.1.redis.getStr "context:v1"
        = none) ∧
    ((createAssistantWithMetadata happyEnv c4InitReq emptyWorld).2.1.redis.getStr
        "assistant_id:v1" = some "asst_1") ∧
    (createAssistantWithMetadata happyEnv c4InitReq emptyWorld).1 = Except.ok "asst_1" :=
  ⟨rfl, rfl, rfl⟩

/-- C4 (amended): the durable-store keys actually written are
`assistant_id:<VideoID>` with a 24-hour expiry for the context mapping,
`thread_id:<VideoID>` with a 24-hour expiry for the thread mapping, and
`interactions:<VideoID>` for the interaction history, which is append-only
and receives no expiry (the append touches no expiring entry). -/
theorem C4_amended_key_namespacing (env : Env) (req : InitializeRequest)
    (aid id tid q : String) (w : World) (tm : ThreadManager)
    (hca : env.provider.createAssistant req.videoID (assistantInstructions req)
        = CallResult.ok id)
    (hsfA : env.faults.setFail ("assistant_id:" ++ req.videoID) = none)
    (hgf : env.faults.getFail ("thread_id:" ++ req.videoID) = none)
    (hmiss : w.redis.getStr ("thread_id:" ++ req.videoID) = none)
    (hct : env.provider.createThread = CallResult.ok tid)
    (hsfT : env.faults.setFail ("thread_id:" ++ req.videoID) = none)
    (hpm : env.provider.postMessage tm.threadID "user" q = PostResult.ok)
    (hrf : env.faults.rpushFail ("interactions:" ++ req.videoID) = none) :
    (createAssistantWithMetadata env req w).2.1.redis.getEntry
        ("assistant_id:" ++ req.videoID) = some (id, ttl24h) ∧
    (getOrCreateThreadManager env req.videoID aid w).2.1.redis.getEntry
        ("thread_id:" ++ req.videoID) = some (tid, ttl24h) ∧
    (tm.addMessageToThread env "user" q req.videoID w).2.1.redis.getList
        ("interactions:" ++ req.videoID)
      = w.redis.getList ("interactions:" ++ req.videoID) ++ [q] ∧
    (tm.addMessageToThread env "user" q req.videoID w).2.1.redis.kv = w.redis.kv := by
  refine ⟨?_, ?_, ?_, ?_⟩
  · simp [createAssistantWithMetadata, hca, hsfA, Redis.getEntry_setStr_self]
  · simp [getOrCreateThreadManager, hgf, hmiss, createThread, hct, hsfT,
      Redis.getEntry_setStr_self]
  · simp [ThreadManager.addMessageToThread, hpm, hrf, Redis.getList_rpush_self]
  · simp [ThreadManager.addMessageToThread, hpm, hrf, Redis.kv_rpush]

theorem C4_amended_witness :
    (createAssistantWithMetadata happyEnv c4InitReq emptyWorld).2.1.redis.getEntry
        ("assistant_id:" ++ "v1") = some ("asst_1", ttl24h) ∧
    (getOrCreateThreadManager happyEnv "v1" "asst_1" emptyWorld).2.1.redis.getEntry
        ("thread_id:" ++ "v1") = some ("thr_1", ttl24h) ∧
    ((ThreadManager.mk "thr_1").addMessageToThread happyEnv "user" "Q" "v1"
        emptyWorld).2.1.redis.getList ("interactions:" ++ "v1")
      = emptyWorld.redis.getList ("interactions:" ++ "v1") ++ ["Q"] ∧
    ((ThreadManager.mk "thr_1").addMessageToThread happyEnv "user" "Q" "v1"
        emptyWorld).2.1.redis.kv = emptyWorld.redis.kv :=
  C4_amended_key_namespacing happyEnv c4InitReq "asst_1" "asst_1" "thr_1" "Q" emptyWorld
    (ThreadManager.mk "thr_1") rfl rfl rfl rfl rfl rfl rfl rfl

/-- Provider whose run reaches the terminal status "failed": every
get-job-status poll answers "failed". -/
def failedRunProvider : Provider :=
  { happyProvider with getRunStatus := fun _ _ => CallResult.ok "failed" }

def failedRunEnv : Env := { provider := failedRunProvider, faults := noFaults }

theorem pollLoop_failedRun_none (fuel : Nat) :
    ∀ (i : Nat) (w : World) (evs : List Event) (tm : ThreadManager) (v runID : String),
      pollLoop failedRunEnv tm v runID fuel i w evs = none := by
  induction fuel with
  | zero => intro i w evs tm v runID; rfl
  | succ n ih =>
    intro i w evs tm v runID
    rw [pollLoop]
    simp only [ThreadManager.getRunStatus, failedRunEnv, failedRunProvider, happyProvider]
    exact ih (i + 1) w _ tm v runID

/-- C1 (evidence of the code bug): on a job whose status is the terminal
value "failed" at every poll, RunAssistant never reports a job-failed error
and never returns a reply: for every amount of fuel the polling loop is
still running, because the loop only tests the status against "completed"
and treats every other value, terminal or not, as a reason to poll again. -/
theorem C1_runAssistant_never_reports_failed (fuel : Nat) (w : World) :
    (ThreadManager.mk "thr_1").runAssistant failedRunEnv "asst_1" "v1" fuel w = none := by
  simp only [ThreadManager.runAssistant, failedRunEnv, failedRunProvider, happyProvider]
  exact pollLoop_failedRun_none fuel 0 w _ _ _ _

theorem Redis.getList_congr (r1 r2 : Redis) (k : String) (h : r1.lists = r2.lists) :
    r1.getList k = r2.getList k := by
  simp [Redis.getList, h]

theorem Redis.getStr_congr (r1 r2 : Redis) (k : String) (h : r1.kv = r2.kv) :
    r1.getStr k = r2.getStr k := by
  simp [Redis.getStr, h]

theorem countEvent_nil (e : Event) : countEvent e [] = 0 := rfl

theorem pollLoop_spec (env : Env) (tm : ThreadManager) (v runID : String) :
    ∀ (fuel i : Nat) (w : World) (evs : List Event) (res : Except String String)
      (wOut : World) (evsOut : List Event),
      pollLoop env tm v runID fuel i w evs = some (res, wOut, evsOut) →
      wOut.redis.kv = w.redis.kv ∧
      wOut.threadManagers = w.threadManagers ∧
      countEvent Event.createThreadCall evsOut = countEvent Event.createThreadCall evs ∧
      countEvent Event.createAssistantCall evsOut = countEvent Event.createAssistantCall evs ∧
      (∀ a, res = Except.ok a →
        wOut.redis.getList ("interactions:" ++ v)
          = w.redis.getList ("interactions:" ++ v) ++ ["Assistant: " ++ a]) := by
  intro fuel
  induction fuel with
  | zero => intro i w evs res wOut evsOut h; simp [pollLoop] at h
  | succ n ih =>
    intro i w evs res wOut evsOut h
    rw [pollLoop] at h
    cases hgs : env.provider.getRunStatus runID i with
    | sendError e =>
      simp [ThreadManager.getRunStatus, hgs] at h
      obtain ⟨h1, h2, h3⟩ := h
      subst h1; subst h2; subst h3
      simp [countEvent_append, countEvent]
    | badStatus body =>
      simp [ThreadManager.getRunStatus, hgs] at h
      obtain ⟨h1, h2, h3⟩ := h
      subst h1; subst h2; subst h3
      simp [countEvent_append, countEvent]
    | decodeError e =>
      simp [ThreadManager.getRunStatus, hgs] at h
      obtain ⟨h1, h2, h3⟩ := h
      subst h1; subst h2; subst h3
      simp [countEvent_append, countEvent]
    | ok status =>
      simp only [ThreadManager.getRunStatus, hgs] at h
      by_cases hc : (status == "completed") = true
      · rw [if_pos hc] at h
        cases hlm : env.provider.listMessages tm.threadID with
        | sendError e =>
          simp [ThreadManager.getThreadMessages, hlm] at h
          obtain ⟨h1, h2, h3⟩ := h
          subst h1; subst h2; subst h3
          simp [countEvent_append, countEvent]
        | badStatus body =>
          simp [ThreadManager.getThreadMessages, hlm] at h
          obtain ⟨h1, h2, h3⟩ := h
          subst h1; subst h2; subst h3
          simp [countEvent_append, countEvent]
        | decodeError e =>
          simp [ThreadManager.getThreadMessages, hlm] at h
          obtain ⟨h1, h2, h3⟩ := h
          subst h1; subst h2; subst h3
          simp [countEvent_append, countEvent]
        | ok messages =>
          simp only [ThreadManager.getThreadMessages, hlm] at h
          cases hfa : findAssistantMessage messages with
          | none =>
            simp [hfa] at h
            obtain ⟨h1, h2, h3⟩ := h
            subst h1; subst h2; subst h3
            simp [countEvent_append, countEvent]
          | some msg =>
            simp only [hfa] at h
            cases hrf : env.faults.rpushFail ("interactions:" ++ v) with
            | some e =>
              simp [hrf] at h
              obtain ⟨h1, h2, h3⟩ := h
              subst h1; subst h2; subst h3
              simp [countEvent_append, countEvent]
            | none =>
              simp [hrf] at h
              obtain ⟨h1, h2, h3⟩ := h
              subst h1; subst h2; subst h3
              refine ⟨rfl, rfl, ?_, ?_, ?_⟩
              · simp [countEvent_append, countEvent]
              · simp [countEvent_append, countEvent]
              · intro a ha
                cases ha
                simp [Redis.getList_rpush_self]
      · rw [if_neg hc] at h
        obtain ⟨hkv, htm, hct2, hca2, hok⟩ := ih (i + 1) w _ res wOut evsOut h
        refine ⟨hkv, htm, ?_, ?_, hok⟩
        · rw [hct2]; simp [countEvent_append, countEvent]
        · rw [hca2]; simp [countEvent_append, countEvent]

theorem runAssistant_spec (env : Env) (tm : ThreadManager) (aid v : String)
    (fuel : Nat) (w : World) (res : Except String String) (wOut : World)
    (evs : List Event)
    (h : tm.runAssistant env aid v fuel w = some (res, wOut, evs)) :
    wOut.redis.kv = w.redis.kv ∧
    wOut.threadManagers = w.threadManagers ∧
    countEvent Event.createThreadCall evs = 0 ∧
    countEvent Event.createAssistantCall evs = 0 ∧
    (∀ a, res = Except.ok a →
      wOut.redis.getList ("interactions:" ++ v)
        = w.redis.getList ("interactions:" ++ v) ++ ["Assistant: " ++ a]) := by
  unfold ThreadManager.runAssistant at h
  cases hsr : env.provider.startRun tm.threadID aid with
  | sendError e =>
    simp [hsr] at h
    obtain ⟨h1, h2, h3⟩ := h
    subst h1; subst h2; subst h3
    refine ⟨rfl, rfl, rfl, rfl, ?_⟩
    intro a ha; cases ha
  | badStatus body =>
    simp [hsr] at h
    obtain ⟨h1, h2, h3⟩ := h
    subst h1; subst h2; subst h3
    refine ⟨rfl, rfl, rfl, rfl, ?_⟩
    intro a ha; cases ha
  | decodeError e =>
    simp [hsr] at h
    obtain ⟨h1, h2, h3⟩ := h
    subst h1; subst h2; subst h3
    refine ⟨rfl, rfl, rfl, rfl, ?_⟩
    intro a ha; cases ha
  | ok run =>
    simp only [hsr] at h
    obtain ⟨hkv, htm, hct2, hca2, hok⟩ :=
      pollLoop_spec env tm v run.1 fuel 0 w _ res wOut evs h
    refine ⟨hkv, htm, ?_, ?_, hok⟩
    · rw [hct2]; simp [countEvent]
    · rw [hca2]; simp [countEvent]

theorem addMessage_spec (env : Env) (tm : ThreadManager) (role content v : String)
    (w : World) (res : Except String Unit) (wOut : World) (evs : List Event)
    (h : tm.addMessageToThread env role content v w = (res, wOut, evs)) :
    wOut.redis.kv = w.redis.kv ∧
    wOut.threadManagers = w.threadManagers ∧
    countEvent Event.createThreadCall evs = 0 ∧
    countEvent Event.createAssistantCall evs = 0 ∧
    (res = Except.ok () →
      wOut.redis.getList ("interactions:" ++ v)
        = w.redis.getList ("interactions:" ++ v) ++ [content]) ∧
    (∀ e, res = Except.error e → wOut = w) := by
  unfold ThreadManager.addMessageToThread at h
  cases hp : env.provider.postMessage tm.threadID role content with
  | sendError e =>
    simp [hp] at h
    obtain ⟨h1, h2, h3⟩ := h
    subst h1; subst h2; subst h3
    exact ⟨rfl, rfl, rfl, rfl, fun hok => Except.noConfusion hok, fun e he => rfl⟩
  | badStatus body =>
    simp [hp] at h
    obtain ⟨h1, h2, h3⟩ := h
    subst h1; subst h2; subst h3
    exact ⟨rfl, rfl, rfl, rfl, fun hok => Except.noConfusion hok, fun e he => rfl⟩
  | ok =>
    simp only [hp] at h
    cases hrf : env.faults.rpushFail ("interactions:" ++ v) with
    | some e =>
      simp [hrf] at h
      obtain ⟨h1, h2, h3⟩ := h
      subst h1; subst h2; subst h3
      exact ⟨rfl, rfl, rfl, rfl, fun hok => Except.noConfusion hok, fun e he => rfl⟩
    | none =>
      simp [hrf] at h
      obtain ⟨h1, h2, h3⟩ := h
      subst h1; subst h2; subst h3
      refine ⟨Redis.kv_rpush _ _ _, rfl, rfl, rfl, ?_, ?_⟩
      · intro hok; simp [Redis.getList_rpush_self]
      · intro e he; cases he

theorem gotm_hit (env : Env) (v aid : String) (w : World) (t : String)
    (hgf : env.faults.getFail ("thread_id:" ++ v) = none)
    (hkey : w.redis.getStr ("thread_id:" ++ v) = some t) :
    getOrCreateThreadManager env v aid w
      = (Except.ok (ThreadManager.mk t),
         { w with threadManagers := (aid, ThreadManager.mk t) :: w.threadManagers }, []) := by
  simp [getOrCreateThreadManager, hgf, hkey]

theorem gotm_miss (env : Env) (v aid : String) (w : World) (tid : String)
    (hgf : env.faults.getFail ("thread_id:" ++ v) = none)
    (hmiss : w.redis.getStr ("thread_id:" ++ v) = none)
    (hct : env.provider.createThread = CallResult.ok tid)
    (hsfT : env.faults.setFail ("thread_id:" ++ v) = none) :
    getOrCreateThreadManager env v aid w
      = (Except.ok (ThreadManager.mk tid),
         { redis := w.redis.setStr ("thread_id:" ++ v) tid ttl24h,
           threadManagers := (aid, ThreadManager.mk tid) :: w.threadManagers },
         [Event.createThreadCall]) := by
  simp [getOrCreateThreadManager, hgf, hmiss, createThread, hct, hsfT]

theorem gotm_preserves_lists (env : Env) (v aid : String) (w : World)
    (res : Except String ThreadManager) (wOut : World) (evs : List Event)
    (h : getOrCreateThreadManager env v aid w = (res, wOut, evs)) :
    wOut.redis.lists = w.redis.lists := by
  unfold getOrCreateThreadManager at h
  cases hgf : env.faults.getFail ("thread_id:" ++ v) with
  | some e =>
    simp [hgf] at h
    obtain ⟨h1, h2, h3⟩ := h
    subst h2; rfl
  | none =>
    simp only [hgf] at h
    cases hkey : w.redis.getStr ("thread_id:" ++ v) with
    | some t =>
      simp [hkey] at h
      obtain ⟨h1, h2, h3⟩ := h
      subst h2; rfl
    | none =>
      simp only [hkey, createThread] at h
      cases hct : env.provider.createThread with
      | sendError e =>
        simp [hct] at h
        obtain ⟨h1, h2, h3⟩ := h
        subst h2; rfl
      | badStatus body =>
        simp [hct] at h
        obtain ⟨h1, h2, h3⟩ := h
        subst h2; rfl
      | decodeError e =>
        simp [hct] at h
        obtain ⟨h1, h2, h3⟩ := h
        subst h2; rfl
      | ok tid =>
        simp only [hct] at h
        cases hsf : env.faults.setFail ("thread_id:" ++ v) with
        | some e =>
          simp [hsf] at h
          obtain ⟨h1, h2, h3⟩ := h
          subst h2; rfl
        | none =>
          simp [hsf] at h
          obtain ⟨h1, h2, h3⟩ := h
          subst h2
          exact Redis.lists_setStr _ _ _ _

theorem ask_ok_appends (env : Env) (v aid q : String) (fuel : Nat) (w : World)
    (a : String) (wOut : World) (evs : List Event)
    (h : askAssistantQuestion env v aid q fuel w = some (Except.ok a, wOut, evs)) :
    wOut.redis.getList ("interactions:" ++ v)
      = w.redis.getList ("interactions:" ++ v) ++ [q, "Assistant: " ++ a] := by
  unfold askAssistantQuestion at h
  cases hg : getOrCreateThreadManager env v aid w with
  | mk rg wg =>
    cases wg with
    | mk w1 evs1 =>
      rw [hg] at h
      cases rg with
      | error e =>
        simp at h
      | ok tm =>
        simp only at h
        cases ha : tm.addMessageToThread env "user" q v w1 with
        | mk ra wa =>
          cases wa with
          | mk w2 evs2 =>
            rw [ha] at h
            cases ra with
            | error e =>
              simp at h
            | ok u =>
              simp only at h
              cases hr : tm.runAssistant env aid v fuel w2 with
              | none => rw [hr] at h; exact absurd h (fun hh => Option.noConfusion hh)
              | some out =>
                cases out with
                | mk rr wr =>
                  cases wr with
                  | mk w3 evs3 =>
                    rw [hr] at h
                    simp only [Option.some.injEq, Prod.mk.injEq] at h
                    obtain ⟨h1, h2, h3⟩ := h
                    subst h1; subst h2
                    have hlists1 := gotm_preserves_lists env v aid w _ _ _ hg
                    have hmsg := addMessage_spec env tm "user" q v w1 _ _ _ ha
                    have hrun := runAssistant_spec env tm aid v fuel w2 _ _ _ hr
                    have e2 : w2.redis.getList ("interactions:" ++ v)
                        = w.redis.getList ("interactions:" ++ v) ++ [q] := by
                      rw [hmsg.2.2.2.2.1 rfl]
                      rw [Redis.getList_congr w1.redis w.redis _ hlists1]
                    rw [hrun.2.2.2.2 a rfl, e2]
                    simp

/-- A sequence of successful ask-question calls for one video: each step is
one AskAssistantQuestion call (under its own environment and fuel) that
returns the answer of that step. -/
inductive AskSeq (videoID assistantID : String) : World → List (String × String) → World → Prop
  | nil (w : World) : AskSeq videoID assistantID w [] w
  | cons (env : Env) (fuel : Nat) (q a : String) (rest : List (String × String))
      (w w1 w2 : World) (evs : List Event)
      (hcall : askAssistantQuestion env videoID assistantID q fuel w
          = some (Except.ok a, w1, evs))
      (hrest : AskSeq videoID assistantID w1 rest w2) :
      AskSeq videoID assistantID w ((q, a) :: rest) w2

/-- The expected interaction-log contents: question then prefixed answer,
in call order. -/
def interleaveQA : List (String × String) → List String
  | [] => []
  | (q, a) :: rest => q :: ("Assistant: " ++ a) :: interleaveQA rest

theorem interleaveQA_length (qas : List (String × String)) :
    (interleaveQA qas).length = 2 * qas.length := by
  induction qas with
  | nil => rfl
  | cons p rest ih => simp [interleaveQA, ih]; omega

theorem askSeq_getList (v aid : String) (qas : List (String × String)) (w wK : World)
    (h : AskSeq v aid w qas wK) :
    wK.redis.getList ("interactions:" ++ v)
      = w.redis.getList ("interactions:" ++ v) ++ interleaveQA qas := by
  induction h with
  | nil w => simp [interleaveQA]
  | cons env fuel q a rest w w1 w2 evs hcall hrest ih =>
    rw [ih, ask_ok_appends env v aid q fuel w a w1 evs hcall]
    simp [interleaveQA]

/-- C2: after K successful ask-question calls for a VideoID, starting from a
state whose interaction list for that video is empty, the list stored under
the interactions key contains exactly the 2K entries
question 1, "Assistant: " ++ answer 1, question 2, ... in call order. -/
theorem C2_interaction_log_contents (v aid : String) (qas : List (String × String))
    (w0 wK : World) (h : AskSeq v aid w0 qas wK)
    (h0 : w0.redis.getList ("interactions:" ++ v) = []) :
    wK.redis.getList ("interactions:" ++ v) = interleaveQA qas ∧
    (wK.redis.getList ("interactions:" ++ v)).length = 2 * qas.length := by
  have hmain := askSeq_getList v aid qas w0 wK h
  rw [h0] at hmain
  simp at hmain
  exact ⟨hmain, by rw [hmain]; exact interleaveQA_length qas⟩

/-- The state after one successful ask-question call from the empty world
under the happy environment (used by the C2 witness). -/
def c2W1 : World :=
  { redis := { kv := [("thread_id:v1", "thr_1", 86400)]
               lists := [("interactions:v1", ["Q", "Assistant: Hello, world."]),
                         ("interactions:v1", ["Q"])] }
    threadManagers := [("asst_1", ThreadManager.mk "thr_1")] }

def c2Evs : List Event :=
  [Event.createThreadCall, Event.postMessageCall "thr_1" "user" "Q",
   Event.startRunCall "thr_1" "asst_1", Event.getRunStatusCall "thr_1" "run_1",
   Event.getRunStatusCall "thr_1" "run_1", Event.getRunStatusCall "thr_1" "run_1",
   Event.listMessagesCall "thr_1"]

theorem C2_witness :
    c2W1.redis.getList ("interactions:" ++ "v1") = interleaveQA [("Q", "Hello, world.")] ∧
    (c2W1.redis.getList ("interactions:" ++ "v1")).length
        = 2 * ([("Q", "Hello, world.")] : List (String × String)).length :=
  C2_interaction_log_contents "v1" "asst_1" [("Q", "Hello, world.")] emptyWorld c2W1
    (AskSeq.cons happyEnv 5 "Q" "Hello, world." [] emptyWorld c2W1 c2W1 c2Evs rfl
      (AskSeq.nil c2W1)) rfl

theorem ask_spec_of_gotm (env : Env) (v aid q : String) (fuel : Nat) (w : World)
    (tm : ThreadManager) (w1 : World) (evs1 : List Event) (res : Except String String)
    (wOut : World) (evs : List Event)
    (hg : getOrCreateThreadManager env v aid w = (Except.ok tm, w1, evs1))
    (h : askAssistantQuestion env v aid q fuel w = some (res, wOut, evs)) :
    ∃ evsT, evs = evs1 ++ evsT ∧
      countEvent Event.createThreadCall evsT = 0 ∧
      countEvent Event.createAssistantCall evsT = 0 ∧
      wOut.redis.kv = w1.redis.kv := by
  unfold askAssistantQuestion at h
  rw [hg] at h
  simp only at h
  cases ha : tm.addMessageToThread env "user" q v w1 with
  | mk ra wa =>
    obtain ⟨w2, evs2⟩ := wa
    rw [ha] at h
    obtain ⟨hkv2, htm2, hctm, hcam, hokm, herrm⟩ := addMessage_spec env tm "user" q v w1 _ _ _ ha
    cases ra with
    | error e =>
      simp only at h
      simp only [Option.some.injEq, Prod.mk.injEq] at h
      obtain ⟨h1, h2, h3⟩ := h
      subst h2; subst h3
      exact ⟨evs2, rfl, hctm, hcam, hkv2⟩
    | ok u =>
      simp only at h
      cases hr : tm.runAssistant env aid v fuel w2 with
      | none => rw [hr] at h; exact absurd h (fun hh => Option.noConfusion hh)
      | some out =>
        obtain ⟨rr, w3, evs3⟩ := out
        rw [hr] at h
        simp only [Option.some.injEq, Prod.mk.injEq] at h
        obtain ⟨h1, h2, h3⟩ := h
        subst h2; subst h3
        obtain ⟨hkv3, htm3, hct3, hca3, hok3⟩ := runAssistant_spec env tm aid v fuel w2 _ _ _ hr
        refine ⟨evs2 ++ evs3, by rw [List.append_assoc], ?_, ?_, ?_⟩
        · rw [countEvent_append, hctm, hct3]
        · rw [countEvent_append, hcam, hca3]
        · rw [hkv3, hkv2]

/-- A fault-free environment for the thread-resolution path of one video:
the durable reads and writes of the thread key succeed and the remote
thread creation succeeds when called. -/
def ReliableEnv (v : String) (env : Env) : Prop :=
  env.faults.getFail ("thread_id:" ++ v) = none ∧
  env.faults.setFail ("thread_id:" ++ v) = none ∧
  ∃ tid, env.provider.createThread = CallResult.ok tid

theorem ask_reliable_spec (env : Env) (v aid q : String) (fuel : Nat) (w : World)
    (res : Except String String) (wOut : World) (evs : List Event)
    (hrel : ReliableEnv v env)
    (h : askAssistantQuestion env v aid q fuel w = some (res, wOut, evs)) :
    countEvent Event.createAssistantCall evs = 0 ∧
    countEvent Event.createThreadCall evs ≤ 1 ∧
    ((w.redis.getStr ("thread_id:" ++ v)).isSome = true →
      countEvent Event.createThreadCall evs = 0) ∧
    (wOut.redis.getStr ("thread_id:" ++ v)).isSome = true := by
  obtain ⟨hgf, hsf, tid, hct⟩ := hrel
  cases hkey : w.redis.getStr ("thread_id:" ++ v) with
  | some t =>
    have hg := gotm_hit env v aid w t hgf hkey
    obtain ⟨evsT, hevs, hctT, hcaT, hkvT⟩ :=
      ask_spec_of_gotm env v aid q fuel w _ _ [] res wOut evs hg h
    subst hevs
    refine ⟨?_, ?_, ?_, ?_⟩
    · simpa using hcaT
    · simp [hctT]
    · intro hx; simpa using hctT
    · have hsame : wOut.redis.getStr ("thread_id:" ++ v)
          = w.redis.getStr ("thread_id:" ++ v) :=
        Redis.getStr_congr _ _ _ hkvT
      rw [hsame, hkey]; rfl
  | none =>
    have hg := gotm_miss env v aid w tid hgf hkey hct hsf
    obtain ⟨evsT, hevs, hctT, hcaT, hkvT⟩ :=
      ask_spec_of_gotm env v aid q fuel w _ _ [Event.createThreadCall] res wOut evs hg h
    subst hevs
    refine ⟨?_, ?_, ?_, ?_⟩
    · simp [countEvent_append, countEvent, hcaT]
    · simp [countEvent_append, countEvent, hctT]
    · intro hx; simp at hx
    · have hsame : wOut.redis.getStr ("thread_id:" ++ v)
          = (w.redis.setStr ("thread_id:" ++ v) tid ttl24h).getStr ("thread_id:" ++ v) :=
        Redis.getStr_congr _ _ _ hkvT
      rw [hsame, Redis.getStr_setStr_self]; rfl

theorem init_events (env : Env) (req : InitializeRequest) (w : World) :
    (createAssistantWithMetadata env req w).2.2 = [Event.createAssistantCall] := by
  unfold createAssistantWithMetadata
  cases env.provider.createAssistant req.videoID (assistantInstructions req) with
  | sendError e => rfl
  | badStatus body => rfl
  | decodeError e => rfl
  | ok id => cases env.faults.setFail ("assistant_id:" ++ req.videoID) <;> rfl

/-- A sequence of completed ask-question calls for one video, each one run
against a reliable environment of its own (any outcome, success or error,
is allowed); the trace collects the provider calls of all of them. -/
inductive AskCalls (videoID assistantID : String) : World → List Event → World → Prop
  | nil (w : World) : AskCalls videoID assistantID w [] w
  | step (env : Env) (fuel : Nat) (q : String) (res : Except String String)
      (w w1 w2 : World) (evs1 evs2 : List Event)
      (hrel : ReliableEnv videoID env)
      (hcall : askAssistantQuestion env videoID assistantID q fuel w
          = some (res, w1, evs1))
      (hrest : AskCalls videoID assistantID w1 evs2 w2) :
      AskCalls videoID assistantID w (evs1 ++ evs2) w2

theorem askCalls_spec (v aid : String) (w : World) (evs : List Event) (wN : World)
    (h : AskCalls v aid w evs wN) :
    countEvent Event.createAssistantCall evs = 0 ∧
    countEvent Event.createThreadCall evs ≤ 1 ∧
    ((w.redis.getStr ("thread_id:" ++ v)).isSome = true →
      countEvent Event.createThreadCall evs = 0) := by
  induction h with
  | nil w => exact ⟨rfl, by simp [countEvent], fun _ => rfl⟩
  | step env fuel q res w w1 w2 evs1 evs2 hrel hcall hrest ih =>
    obtain ⟨hca1, hct1, hhit1, hsome1⟩ :=
      ask_reliable_spec env v aid q fuel w res w1 evs1 hrel hcall
    obtain ⟨ihca, ihct, ihhit⟩ := ih
    have h2 : countEvent Event.createThreadCall evs2 = 0 := ihhit hsome1
    refine ⟨?_, ?_, ?_⟩
    · rw [countEvent_append, hca1, ihca]
    · rw [countEvent_append, h2]; omega
    · intro hks
      rw [countEvent_append, hhit1 hks, h2]

/-- C3: after one initialize-session call followed by any number of
completed ask-question calls over reliable environments, the whole trace
holds at most one remote context (assistant) creation call and at most one
remote thread creation call; moreover thread resolution is idempotent: on a
durable-store hit GetOrCreateThreadManager returns the stored ThreadID with
no provider call at all, and only on a miss does it create a thread and
store the new ID with the 24-hour expiry. -/
theorem C3_at_most_one_remote_creation (v aid : String) (env0 : Env)
    (req : InitializeRequest) (w0 : World) (r0 : Except String String) (w1 : World)
    (evs0 evs : List Event) (w2 : World)
    (hinit : createAssistantWithMetadata env0 req w0 = (r0, w1, evs0))
    (hasks : AskCalls v aid w1 evs w2) :
    countEvent Event.createAssistantCall (evs0 ++ evs) ≤ 1 ∧
    countEvent Event.createThreadCall (evs0 ++ evs) ≤ 1 ∧
    (∀ (env : Env) (w : World) (t : String),
        env.faults.getFail ("thread_id:" ++ v) = none →
        w.redis.getStr ("thread_id:" ++ v) = some t →
        getOrCreateThreadManager env v aid w
          = (Except.ok (ThreadManager.mk t),
             { w with threadManagers := (aid, ThreadManager.mk t) :: w.threadManagers },
             [])) ∧
    (∀ (env : Env) (w : World) (tid : String),
        env.faults.getFail ("thread_id:" ++ v) = none →
        w.redis.getStr ("thread_id:" ++ v) = none →
        env.provider.createThread = CallResult.ok tid →
        env.faults.setFail ("thread_id:" ++ v) = none →
        getOrCreateThreadManager env v aid w
          = (Except.ok (ThreadManager.mk tid),
             { redis := w.redis.setStr ("thread_id:" ++ v) tid ttl24h,
               threadManagers := (aid, ThreadManager.mk tid) :: w.threadManagers },
             [Event.createThreadCall])) := by
  have hevs0 : evs0 = [Event.createAssistantCall] := by
    have hinitEvs := init_events env0 req w0
    rw [hinit] at hinitEvs
    exact hinitEvs
  subst hevs0
  obtain ⟨hca, hct, _⟩ := askCalls_spec v aid w1 evs w2 hasks
  refine ⟨?_, ?_, ?_, ?_⟩
  · rw [countEvent_append, hca]; simp [countEvent]
  · rw [countEvent_append]
    have hz : countEvent Event.createThreadCall [Event.createAssistantCall] = 0 := by
      simp [countEvent]
    rw [hz]; omega
  · exact fun env w t hgf hkey => gotm_hit env v aid w t hgf hkey
  · exact fun env w tid hgf hkey hctr hsf => gotm_miss env v aid w tid hgf hkey hctr hsf

def c3W1 : World :=
  { redis := { kv := [("assistant_id:v1", "asst_1", 86400)], lists := [] }
    threadManagers := [] }

def c3W2 : World :=
  { redis := { kv := [("thread_id:v1", "thr_1", 86400), ("assistant_id:v1", "asst_1", 86400)]
               lists := [("interactions:v1", ["Q", "Assistant: Hello, world."]),
                         ("interactions:v1", ["Q"])] }
    threadManagers := [("asst_1", ThreadManager.mk "thr_1")] }

theorem C3_witness :
    countEvent Event.createAssistantCall ([Event.createAssistantCall] ++ (c2Evs ++ [])) ≤ 1 ∧
    countEvent Event.createThreadCall ([Event.createAssistantCall] ++ (c2Evs ++ [])) ≤ 1 ∧
    getOrCreateThreadManager happyEnv "v1" "asst_1" c9WorldA
      = (Except.ok (ThreadManager.mk "thr_9"),
         { c9WorldA with
             threadManagers := ("asst_1", ThreadManager.mk "thr_9") :: c9WorldA.threadManagers },
         []) ∧
    getOrCreateThreadManager happyEnv "v1" "asst_1" emptyWorld
      = (Except.ok (ThreadManager.mk "thr_1"),
         { redis := emptyWorld.redis.setStr ("thread_id:" ++ "v1") "thr_1" ttl24h,
           threadManagers := ("asst_1", ThreadManager.mk "thr_1") :: emptyWorld.threadManagers },
         [Event.createThreadCall]) := by
  have T := C3_at_most_one_remote_creation "v1" "asst_1" happyEnv c4InitReq emptyWorld
    (Except.ok "asst_1") c3W1 [Event.createAssistantCall] (c2Evs ++ []) c3W2 rfl
    (AskCalls.step happyEnv 5 "Q" (Except.ok "Hello, world.") c3W1 c3W2 c3W2 c2Evs []
      ⟨rfl, rfl, ⟨"thr_1", rfl⟩⟩ rfl (AskCalls.nil c3W2))
  exact ⟨T.1, T.2.1, T.2.2.1 happyEnv c9WorldA "thr_9" rfl rfl,
         T.2.2.2 happyEnv emptyWorld "thr_1" rfl rfl rfl rfl⟩
